import Mathlib

/-!
Verification development for the pyNexafs Australian-Synchrotron parsers.

This file gives a shallow embedding of the three source modules
(`pyNexafs/parsers/au/aus_sync.py`, `pyNexafs/parsers/au/aus_sync/MEX2.py`)
into Lean 4 and proves properties of the embedded code.

Conventions:
* Python strings are Lean `String`s; all string primitives (`strip`, `split`,
  `replace`, slicing) are re-implemented below with structural recursion so
  that every definition evaluates inside the kernel.
* Python machine floats are modelled as exact rationals `ℚ`.
* Python exceptions are modelled with `Except PyErr`.
* A file handle is modelled as the list of its lines; each line carries its
  trailing newline character exactly as `TextIOWrapper.readline` returns it,
  and reading at end-of-file yields `""`.
-/

set_option maxRecDepth 100000

/-- Python runtime errors raised by the embedded code. -/
inductive PyErr where
  | assertionError (msg : String)
  | valueError (msg : String)
  | indexError
  | keyError
  | typeError
  deriving DecidableEq, Repr

/-- The whitespace characters recognised by Python's `str.strip()`
(restricted to the ones that can occur in these line-oriented files). -/
def isPySpace (c : Char) : Bool :=
  c == ' ' || c == '\t' || c == '\n' || c == '\r' || c == '\x0c' || c == '\x0b'

/-- `str.strip()` on a character list. -/
def pyStripList (l : List Char) : List Char :=
  ((l.dropWhile isPySpace).reverse.dropWhile isPySpace).reverse

/-- Python `s.strip()`. -/
def pyStrip (s : String) : String := ⟨pyStripList s.data⟩

/-- Python slice `s[a:b]` (with the usual clamping semantics). -/
def pySlice (s : String) (a b : Nat) : String := ⟨(s.data.drop a).take (b - a)⟩

/-- Python slice `s[a:]`. -/
def pyDropStr (s : String) (a : Nat) : String := ⟨s.data.drop a⟩

/-- Python `s.startswith(p)`. -/
def pyStartsWith (s p : String) : Bool := p.data.isPrefixOf s.data

/-- Python `s.endswith(p)`. -/
def pyEndsWith (s p : String) : Bool := p.data.isSuffixOf s.data

/-- Substring occurrence test on character lists. -/
def listIsInfixOf (p : List Char) : List Char → Bool
  | [] => p.isEmpty
  | c :: rest => p.isPrefixOf (c :: rest) || listIsInfixOf p rest

/-- Python substring containment `p in s`. -/
def pyContains (s p : String) : Bool := listIsInfixOf p.data s.data

/-- Worker for `str.split(sep)`; `fuel` bounds the number of consumed
characters (one per step), so structural recursion suffices. -/
def pySplitAllAux (sep : List Char) : Nat → List Char → List Char → List (List Char)
  | _, [], cur => [cur.reverse]
  | 0, rest, cur => [cur.reverse ++ rest]
  | fuel + 1, c :: rest, cur =>
    if sep.isPrefixOf (c :: rest) then
      cur.reverse :: pySplitAllAux sep fuel (List.drop sep.length (c :: rest)) []
    else
      pySplitAllAux sep fuel rest (c :: cur)

/-- Python `s.split(sep)` for a non-empty separator `sep`. -/
def pySplitAll (sep s : String) : List String :=
  (pySplitAllAux sep.data s.data.length s.data []).map (fun l => ⟨l⟩)

/-- Worker for `str.split(sep, 1)`. -/
def pySplit1Aux (sep : List Char) : Nat → List Char → List Char → List (List Char)
  | _, [], cur => [cur.reverse]
  | 0, rest, cur => [cur.reverse ++ rest]
  | fuel + 1, c :: rest, cur =>
    if sep.isPrefixOf (c :: rest) then
      [cur.reverse, List.drop sep.length (c :: rest)]
    else
      pySplit1Aux sep fuel rest (c :: cur)

/-- Python `s.split(sep, 1)` (split at the first occurrence only). -/
def pySplit1 (sep s : String) : List String :=
  (pySplit1Aux sep.data s.data.length s.data []).map (fun l => ⟨l⟩)

/-- Worker for `str.replace(pat, rep)` (non-overlapping, left to right). -/
def pyReplaceAux (pat rep : List Char) : Nat → List Char → List Char
  | _, [] => []
  | 0, l => l
  | fuel + 1, c :: rest =>
    if pat.isPrefixOf (c :: rest) then
      rep ++ pyReplaceAux pat rep fuel (List.drop pat.length (c :: rest))
    else
      c :: pyReplaceAux pat rep fuel rest

/-- Python `s.replace(pat, rep)` for a non-empty pattern. -/
def pyReplace (s pat rep : String) : String :=
  ⟨pyReplaceAux pat.data rep.data s.data.length s.data⟩

/-- Worker for whitespace `str.split()` (no argument): runs of whitespace
separate fields, leading/trailing whitespace is dropped. -/
def pySplitWsAux : List Char → List Char → List (List Char)
  | [], cur => if cur.isEmpty then [] else [cur.reverse]
  | c :: rest, cur =>
    if isPySpace c then
      if cur.isEmpty then pySplitWsAux rest [] else cur.reverse :: pySplitWsAux rest []
    else
      pySplitWsAux rest (c :: cur)

/-- Python `s.split()` (split on whitespace runs). -/
def pySplitWs (s : String) : List String :=
  (pySplitWsAux s.data []).map (fun l => ⟨l⟩)

/-- Reads a maximal run of decimal digits, returning the accumulated value,
the number of digits read and the remaining characters. -/
def pyDigitsAux : List Char → Nat → Nat → Nat × Nat × List Char
  | [], acc, n => (acc, n, [])
  | c :: rest, acc, n =>
    if c.isDigit then pyDigitsAux rest (acc * 10 + (c.toNat - 48)) (n + 1)
    else (acc, n, c :: rest)

/-- Python `int(s)`: optional sign, one or more digits, nothing else
(after stripping whitespace). Returns `none` where Python raises. -/
def pyInt? (s : String) : Option Int :=
  let l := pyStripList s.data
  let signed : Bool × List Char :=
    match l with
    | '-' :: rest => (true, rest)
    | '+' :: rest => (false, rest)
    | rest => (false, rest)
  let r := pyDigitsAux signed.2 0 0
  if r.2.1 = 0 ∨ ¬ r.2.2.isEmpty then none
  else some (if signed.1 then -(r.1 : Int) else (r.1 : Int))

/-- Helper: `10 ^ n` in `ℚ`. -/
def qpow10 (n : Nat) : ℚ := ((10 : ℚ)) ^ n

/-- Python `float(s)` restricted to the decimal forms that occur in these
files: optional sign, digits with an optional fractional part (at least one
digit overall), and an optional decimal exponent. Returns `none` where
Python raises. -/
def pyFloat? (s : String) : Option ℚ :=
  let l := pyStripList s.data
  let signed : Bool × List Char :=
    match l with
    | '-' :: rest => (true, rest)
    | '+' :: rest => (false, rest)
    | rest => (false, rest)
  let ipr := pyDigitsAux signed.2 0 0
  let afterInt := ipr.2.2
  let fracState : Nat × Nat × List Char :=
    match afterInt with
    | '.' :: rest => pyDigitsAux rest 0 0
    | rest => (0, 0, rest)
  let hadDot : Bool := match afterInt with | '.' :: _ => true | _ => false
  if ipr.2.1 = 0 ∧ (¬ hadDot ∨ fracState.2.1 = 0) then none
  else
    let mantissa : ℚ := (ipr.1 : ℚ) + (fracState.1 : ℚ) / qpow10 fracState.2.1
    let afterFrac := fracState.2.2
    let finish : Option ℚ :=
      match afterFrac with
      | [] => some mantissa
      | 'e' :: rest => pyFloatExp mantissa rest
      | 'E' :: rest => pyFloatExp mantissa rest
      | _ => none
    finish.map (fun q => if signed.1 then -q else q)
where
  /-- Parses the signed exponent of a float literal and applies it. -/
  pyFloatExp (m : ℚ) (l : List Char) : Option ℚ :=
    let signed : Bool × List Char :=
      match l with
      | '-' :: rest => (true, rest)
      | '+' :: rest => (false, rest)
      | rest => (false, rest)
    let r := pyDigitsAux signed.2 0 0
    if r.2.1 = 0 ∨ ¬ r.2.2.isEmpty then none
    else some (if signed.1 then m / qpow10 r.1 else m * qpow10 r.1)

/-- A Python value as stored in a parameter record. -/
inductive PyVal where
  | str (s : String)
  | int (n : Int)
  | float (q : ℚ)
  deriving DecidableEq, Repr

/-- `d[k] = v` on an insertion-ordered dictionary: overwrite in place if the
key exists, otherwise append. -/
def dictInsert {α : Type} (k : String) (v : α) : List (String × α) → List (String × α)
  | [] => [(k, v)]
  | (k', v') :: rest =>
    if k' = k then (k, v) :: rest else (k', v') :: dictInsert k v rest

/-- `d.get(k)` on an insertion-ordered dictionary. -/
def dictGet? {α : Type} (k : String) : List (String × α) → Option α
  | [] => none
  | (k', v') :: rest => if k' = k then some v' else dictGet? k rest

/-! ## The Calibrated Bin-Energy Table (`MEX2.py`, lines 25–36)

```python
BIN_ENERGY_DELTA = 11.935
BIN_96_ENERGY = 1146.7
TOTAL_BINS = 4096
TOTAL_BIN_ENERGIES = np.linspace(
    start=BIN_96_ENERGY - 95 * BIN_ENERGY_DELTA,
    stop=BIN_96_ENERGY + (TOTAL_BINS - 96) * BIN_ENERGY_DELTA,
    num=TOTAL_BINS,
)
INTERESTING_BINS_IDX = [80, 900]
```
-/

def BIN_ENERGY_DELTA : ℚ := 11935 / 1000

def BIN_96_ENERGY : ℚ := 11467 / 10

def TOTAL_BINS : Nat := 4096

/-- `np.linspace(start, stop, num)` evaluated at index `i`: `num` evenly
spaced samples over `[start, stop]`, so step `(stop - start) / (num - 1)`. -/
def linspace (start stop : ℚ) (num : Nat) (i : Nat) : ℚ :=
  start + (i : ℚ) * ((stop - start) / ((num : ℚ) - 1))

/-- Entry `i` of `TOTAL_BIN_ENERGIES`. -/
def TOTAL_BIN_ENERGIES (i : Nat) : ℚ :=
  linspace (BIN_96_ENERGY - 95 * BIN_ENERGY_DELTA)
    (BIN_96_ENERGY + ((TOTAL_BINS : ℚ) - 96) * BIN_ENERGY_DELTA)
    TOTAL_BINS i

/-- `INTERESTING_BINS_IDX = [80, 900]`. -/
def INTERESTING_BINS_IDX : Nat × Nat := (80, 900)

/-- `INTERESTING_BINS_ENERGIES = TOTAL_BIN_ENERGIES[80:900]`. -/
def INTERESTING_BINS_ENERGIES : List ℚ :=
  (List.range (INTERESTING_BINS_IDX.2 - INTERESTING_BINS_IDX.1)).map
    (fun i => TOTAL_BIN_ENERGIES (INTERESTING_BINS_IDX.1 + i))

/-- The table's step between consecutive entries is exactly the declared
spacing: `(stop - start) / (num - 1)` collapses to `BIN_ENERGY_DELTA`. -/
theorem total_bin_energies_linear (i : Nat) :
    TOTAL_BIN_ENERGIES i = BIN_96_ENERGY + ((i : ℚ) - 95) * BIN_ENERGY_DELTA := by
  unfold TOTAL_BIN_ENERGIES linspace BIN_96_ENERGY BIN_ENERGY_DELTA TOTAL_BINS
  norm_num
  ring

/-- CLAIM C1 (counterexample): the table is not anchored at index 96 — the
entry at index 96 differs from 1146.7 (it is 1158.635), refuting the claimed
formula `entry i = 1146.7 + (i - 96) * 11.935` at `i = 96`. -/
theorem c1_anchor_index_96_counterexample :
    TOTAL_BIN_ENERGIES 96 ≠ 11467 / 10 + ((96 : ℚ) - 96) * (11935 / 1000) ∧
      TOTAL_BIN_ENERGIES 96 = 1158635 / 1000 := by
  constructor
  · rw [total_bin_energies_linear]
    unfold BIN_96_ENERGY BIN_ENERGY_DELTA
    norm_num
  · rw [total_bin_energies_linear]
    unfold BIN_96_ENERGY BIN_ENERGY_DELTA
    norm_num

/-- CLAIM C1 (amended): the table is the linear mapping anchored at energy
1146.7 for bin index 95 (0-based) with spacing 11.935: for every `i < 4096`
the entry equals `1146.7 + (i - 95) * 11.935`; the entry at index 95 equals
1146.7, and consecutive entries differ by exactly 11.935. -/
theorem c1_bin_energy_table_linear (i : Nat) (hi : i < 4096) :
    TOTAL_BIN_ENERGIES i = 11467 / 10 + ((i : ℚ) - 95) * (11935 / 1000) ∧
      TOTAL_BIN_ENERGIES 95 = 11467 / 10 ∧
      TOTAL_BIN_ENERGIES (i + 1) - TOTAL_BIN_ENERGIES i = 11935 / 1000 := by
  refine ⟨?_, ?_, ?_⟩
  · rw [total_bin_energies_linear]; unfold BIN_96_ENERGY BIN_ENERGY_DELTA; norm_num
  · rw [total_bin_energies_linear]; unfold BIN_96_ENERGY BIN_ENERGY_DELTA; norm_num
  · rw [total_bin_energies_linear, total_bin_energies_linear]
    unfold BIN_96_ENERGY BIN_ENERGY_DELTA
    push_cast
    ring

/-- Witness for `c1_bin_energy_table_linear` at the concrete index 96. -/
theorem c1_bin_energy_table_linear_witness :
    (96 : Nat) < 4096 ∧
      TOTAL_BIN_ENERGIES 96 = 11467 / 10 + ((96 : ℚ) - 95) * (11935 / 1000) :=
  ⟨by norm_num, (c1_bin_energy_table_linear 96 (by norm_num)).1⟩

/-! ## Format B: `SXR_NEXAFS.parse_asc` (`aus_sync.py`, lines 352–521)

The file handle is the list of remaining lines; `readline` at end-of-file
returns `""`. Every loop consumes exactly one line per iteration, so all
loops are structural recursions over the line list. -/

/-- A value stored in a parameter record by the `.asc` parser. -/
inductive AscVal where
  | s (v : String)
  | pv (vs : List PyVal)
  | colTypes (m : List (String × List String))
  | colDescs (m : List (Int × List String))
  deriving DecidableEq, Repr

/-- The `(data, labels, units, params)` result of `parse_asc`. -/
structure AscOut where
  data : Option (List (List ℚ))
  labels : List String
  units : List (Option String)
  params : List (String × AscVal)
  deriving DecidableEq, Repr

/-- `d[k] = v` on an insertion-ordered dictionary keyed by `Int`
(used for the `column_descriptions` mapping). -/
def dictInsertInt {α : Type} (k : Int) (v : α) : List (Int × α) → List (Int × α)
  | [] => [(k, v)]
  | (k', v') :: rest =>
    if k' = k then (k, v) :: rest else (k', v') :: dictInsertInt k v rest

/-- `assert file.readline() == expected`: consume one line and fail with
`AssertionError` unless it matches. -/
def expectLine (expected : String) : List String → Except PyErr (List String)
  | [] => if expected = "" then .ok [] else .error (.assertionError expected)
  | l :: rest => if l = expected then .ok rest else .error (.assertionError expected)

/-- One `"key = value"` metadata line (`line[2:].strip().split(" = ", 1)`;
lines that do not split into two fields are skipped, not fatal). -/
def ascKVLine (line : String) (params : List (String × AscVal)) :
    List (String × AscVal) :=
  match pySplit1 " = " (pyStrip (pyDropStr line 2)) with
  | [k, v] => dictInsert k (.s v) params
  | _ => params

/-- Reads `n` consecutive `"key = value"` metadata lines. -/
def ascKVLines : Nat → List String → List (String × AscVal) →
    List (String × AscVal) × List String
  | 0, lines, params => (params, lines)
  | n + 1, [], params => ascKVLines n [] (ascKVLine "" params)
  | n + 1, line :: rest, params => ascKVLines n rest (ascKVLine line params)

/-- Numeric coercion of the fourth value of an Extra-PV field list
(`vals[3] = float(vals[3]) if "." in vals[3] else int(vals[3])`, with a
`ValueError` falling back to the text form). Applied only when the list
has exactly four entries. -/
def ascCoerceLast4 (vals : List PyVal) : List PyVal :=
  match vals with
  | [a, b, c, .str d] =>
    if pyContains d "." then
      match pyFloat? d with
      | some q => [a, b, c, .float q]
      | none => [a, b, c, .str d]
    else
      match pyInt? d with
      | some n => [a, b, c, .int n]
      | none => [a, b, c, .str d]
  | l => l

/-- The Extra-PV block loop (`aus_sync.py`, lines 410–428): each line is
split after the `# Extra PV <n>:` prefix on commas; all fields are stored
as trimmed, quote-stripped strings, with numeric coercion attempted only
when there are exactly four fields after the name (and then on the fourth).
At end-of-file, `"".strip().split(":", 1)[1]` raises `IndexError`. -/
def ascExtraPVLoop : List String → List (String × AscVal) →
    Except PyErr (List (String × AscVal) × List String)
  | [], _ => .error .indexError
  | line :: rest, params =>
    if line = "\n" then .ok (params, rest)
    else
      match pySplit1 ":" (pyStrip line) with
      | [name0, rem] =>
        let fields := pySplitAll "," rem
        let vals0 : List PyVal :=
          (fields.drop 1).map (fun f => .str (pyReplace (pyStrip f) "\"" ""))
        let vals : List PyVal :=
          if vals0.length = 4 then ascCoerceLast4 vals0 else vals0
        let _ := name0
        ascExtraPVLoop rest
          (dictInsert (pyStrip (fields.headD "")) (.pv vals) params)
      | _ => .error .indexError

/-- The column-type declaration loop (`aus_sync.py`, lines 446–454):
`#  <TypeName>: attr1, attr2, ...` lines, split on the first `": "`;
the name drops the three leading characters `"#  "`. -/
def ascColTypesLoop : List String → List (String × List String) →
    Except PyErr (List (String × List String) × List String)
  | [], _ => .error .indexError
  | line :: rest, ctypes =>
    if line = "\n" then .ok (ctypes, rest)
    else
      match pySplit1 ": " (pyStrip line) with
      | [t0, t1] =>
        ascColTypesLoop rest
          (dictInsert (pyDropStr t0 3) (pySplitAll ", " t1) ctypes)
      | _ => .error .indexError

/-- One row of the column-description block (`aus_sync.py`, lines 462–498):
fixed-width index field `line[1:6]`, bracketed type token `line[8:26]`,
comma-separated info list `line[28:]`. Returns the extended
labels/units/description structures. -/
def ascDescStep (ctypes : List (String × List String)) (line : String)
    (labels : List String) (units : List (Option String))
    (cdescs : List (Int × List String)) :
    Except PyErr (List String × List (Option String) × List (Int × List String)) :=
  match pyInt? (pyStrip (pySlice line 1 6)) with
  | none => .error (.valueError "invalid literal for int()")
  | some index =>
    let indexLine : Bool := index = 1
    let dt0 := pySlice line 8 26
    match dt0.data.head? with
    | none => .error .indexError
    | some c0 =>
      if c0 = '[' ∧ dt0.data.getLast? = some ']' then
        let dty := pyStrip ⟨(dt0.data.drop 1).dropLast⟩
        let valid : Bool :=
          indexLine || ctypes.any (fun ct => listIsInfixOf ct.1.data dty.data)
        if valid then
          let descInfo := pySplitAll ", " (pyDropStr line 28)
          let cdescs' := dictInsertInt index descInfo cdescs
          if indexLine = false ∧ ¬ pyStartsWith (descInfo.headD "") "SR14ID01" then
            .error (.assertionError "SR14ID01")
          else
            let labels' :=
              labels ++ [if indexLine then "Index" else pyStrip (descInfo.headD "")]
            if pyContains dty "Positioner" then
              match descInfo.get? 3 with
              | none => .error .indexError
              | some u => .ok (labels', units ++ [some (pyStrip u)], cdescs')
            else if pyContains dty "Detector" then
              match descInfo.get? 2 with
              | none => .error .indexError
              | some u =>
                let d := pyStrip u
                .ok (labels', units ++ [if d = "" then none else some d], cdescs')
            else if indexLine then
              .ok (labels', units ++ [none], cdescs')
            else
              .ok (labels', units, cdescs')
        else
          .error (.valueError ("Invalid column type " ++ dty ++ " in line " ++ line))
      else
        .error (.assertionError "column description brackets")

/-- The column-description loop (`aus_sync.py`, lines 460–501). At
end-of-file, `int("".strip())` raises. -/
def ascDescLoop (ctypes : List (String × List String)) :
    List String → List String → List (Option String) → List (Int × List String) →
    Except PyErr
      (List String × List (Option String) × List (Int × List String) × List String)
  | [], _, _, _ => .error (.valueError "invalid literal for int()")
  | line :: rest, labels, units, cdescs =>
    if line = "\n" then .ok (labels, units, cdescs, rest)
    else
      match ascDescStep ctypes line labels units cdescs with
      | .error e => .error e
      | .ok (labels', units', cdescs') => ascDescLoop ctypes rest labels' units' cdescs'

/-- `np.loadtxt(lines, delimiter="\t")`, modelled from the numpy API:
comment (`#`) and blank lines are skipped, every remaining line is split on
tabs, every field must convert to a float, and all rows must have the same
number of fields. -/
def np_loadtxt_tab (lines : List String) : Except PyErr (List (List ℚ)) :=
  let rows := (lines.map pyStrip).filter (fun l => l ≠ "" && !pyStartsWith l "#")
  match rows.mapM (fun l => (pySplitAll "\t" l).mapM pyFloat?) with
  | none => .error (.valueError "could not convert string to float")
  | some rws =>
    if rws.all (fun r => r.length = (rws.headD []).length) then .ok rws
    else .error (.valueError "wrong number of columns")

/-- All header phases of `parse_asc` up to the start of the
column-description block: magic line, initial metadata, the Extra-PV block,
the scan header and the column-type declarations. Returns the parameter
record so far, the declared column types, and the remaining lines
positioned at the first column-description row. -/
def ascHeaderPhase (fileName : String) (file : List String) :
    Except PyErr
      (List (String × AscVal) × List (String × List String) × List String) := do
  let params0 : List (String × AscVal) := [("filename", .s fileName)]
  if ¬ pyEndsWith fileName ".asc" then
    throw (.valueError ("File " ++ fileName ++ " is not a valid .asc file."))
  let rest ← expectLine "## mda2ascii 0.3.2 generated output\n" file
  let rest := rest.drop 2
  let r1 := ascKVLines 4 rest params0
  let rest := r1.2.drop 2
  let rest ← expectLine "#  Extra PV: name, descr, values (, unit)\n" rest
  let rest := rest.drop 1
  let r2 ← ascExtraPVLoop rest r1.1
  let rest := r2.2.drop 1
  let rest ← expectLine "# 1-D Scan\n" rest
  let r3 := ascKVLines 3 rest r2.1
  let rest := r3.2.drop 1
  let r4 ← ascColTypesLoop rest []
  return (r3.1, r4.1, r4.2.drop 1)

/-- `SXR_NEXAFS.parse_asc` (`aus_sync.py`, lines 352–521). -/
def parse_asc (fileName : String) (file : List String) (header_only : Bool) :
    Except PyErr AscOut := do
  let r ← ascHeaderPhase fileName file
  let r5 ← ascDescLoop r.2.1 r.2.2 [] [] []
  let params := dictInsert "column_types" (.colTypes r.2.1) r.1
  let params := dictInsert "column_descriptions" (.colDescs r5.2.2.1) params
  if header_only then
    return ⟨none, r5.1, r5.2.1, params⟩
  let rest ← expectLine "# 1-D Scan Values\n" r5.2.2.2
  let data ← np_loadtxt_tab rest
  return ⟨some data, r5.1, r5.2.1, params⟩

/-! ## Dictionary lemmas -/

/-- Looking up the key just inserted returns the inserted value. -/
theorem dictGet?_insert_self {α : Type} (k : String) (v : α)
    (d : List (String × α)) : dictGet? k (dictInsert k v d) = some v := by
  induction d with
  | nil => simp [dictInsert, dictGet?]
  | cons hd tl ih =>
    by_cases h : hd.1 = k
    · simp [dictInsert, dictGet?, h]
    · simp [dictInsert, dictGet?, h, ih]

/-- Inserting under a different key does not change a lookup. -/
theorem dictGet?_insert_ne {α : Type} (k k' : String) (v : α)
    (d : List (String × α)) (hne : k' ≠ k) :
    dictGet? k (dictInsert k' v d) = dictGet? k d := by
  induction d with
  | nil => simp [dictInsert, dictGet?, hne]
  | cons hd tl ih =>
    by_cases h : hd.1 = k'
    · simp [dictInsert, dictGet?, h, hne]
    · by_cases h2 : hd.1 = k
      · have hne2 : ¬ (k = k') := fun hh => hne hh.symm
        simp [dictInsert, dictGet?, h, h2, hne2]
      · simp [dictInsert, dictGet?, h, h2, ih]

/-! ## Claim C4: Extra-PV value coercion -/

/-- A representative well-formed `.asc` file containing the Extra-PV line
`# Extra PV 1: FOO, Foo descr, 1.5, V`. -/
def ascSampleFile : List String := [
  "## mda2ascii 0.3.2 generated output\n",
  "\n",
  "\n",
  "# MDA File Version = 1.3\n",
  "# Scan Number = 1\n",
  "# Overall scan dimension = 1-D\n",
  "# Total requested scan size = 3\n",
  "\n",
  "\n",
  "#  Extra PV: name, descr, values (, unit)\n",
  "\n",
  "# Extra PV 1: FOO, Foo descr, 1.5, V\n",
  "\n",
  "\n",
  "# 1-D Scan\n",
  "# Points completed = 3 of 3\n",
  "# Scanner = SR14ID01NEXSCAN:scan1\n",
  "# Scan time = Aug 01, 2024 10:00:00.000000\n",
  "\n",
  "#  Positioner: name, descr, step mode, unit, rdbk name, rdbk descr, rdbk unit\n",
  "#  Detector: name, descr, unit\n",
  "\n",
  "# Column Descriptions:\n",
  "#    1  [     Index      ]\n",
  "#    2  [1-D Positioner 1]  SR14ID01PGM:LOCAL_SP, Mono setpoint, TABLE, eV, SR14ID01PGM:LOCAL_SP, Mono setpoint, eV\n",
  "#    3  [1-D Detector   1]  SR14ID01IOC68:scaler1.S20, , counts\n",
  "\n",
  "# 1-D Scan Values\n",
  "1\t1200.5\t42\n",
  "2\t1201.5\t43\n",
  "3\t1202.5\t44\n"]

/-- CLAIM C4 (counterexample): on a Format B parse of a file whose Extra-PV
block is exactly `# Extra PV 1: FOO, Foo descr, 1.5, V`, the stored value of
`params["FOO"]` is the list of three strings `["Foo descr", "1.5", "V"]` —
the field `"1.5"` is *not* coerced to the number 1.5 (the coercion branch
runs only when there are four fields after the name), refuting the claim. -/
theorem c4_extra_pv_counterexample :
    (parse_asc "t.asc" ascSampleFile true).map (fun o => dictGet? "FOO" o.params) =
        .ok (some (.pv [.str "Foo descr", .str "1.5", .str "V"])) ∧
      AscVal.pv [.str "Foo descr", .str "1.5", .str "V"] ≠
        AscVal.pv [.str "Foo descr", .float (3 / 2), .str "V"] :=
  ⟨rfl, by decide⟩

/-- CLAIM C4 (amended): an Extra PV line `# Extra PV 1: FOO, Foo descr, 1.5, V`
stores `params["FOO"] = ["Foo descr", "1.5", "V"]` with every field kept as
text: numeric coercion is attempted only when exactly four fields follow the
name (and then on the fourth), so with three fields the value `1.5` stays the
string `"1.5"`. -/
theorem c4_extra_pv_stored_as_text (params : List (String × AscVal))
    (rest : List String) :
    ascExtraPVLoop ("# Extra PV 1: FOO, Foo descr, 1.5, V\n" :: rest) params =
        ascExtraPVLoop rest
          (dictInsert "FOO" (.pv [.str "Foo descr", .str "1.5", .str "V"]) params) ∧
      dictGet? "FOO"
          (dictInsert "FOO" (AscVal.pv [.str "Foo descr", .str "1.5", .str "V"]) params) =
        some (.pv [.str "Foo descr", .str "1.5", .str "V"]) :=
  ⟨rfl, dictGet?_insert_self _ _ _⟩

/-! ## Claim C6: labels/units lengths in `parse_asc` -/

/-- Whether a column-description row contributes a units entry: it is the
index row (`int(line[1:6]) == 1`), or its bracketed type token contains
`"Positioner"` or `"Detector"`. Rows whose index field does not parse abort
the whole parse, so their value here is irrelevant (chosen `true`). -/
def ascRowAddsUnit (line : String) : Bool :=
  match pyInt? (pyStrip (pySlice line 1 6)) with
  | none => true
  | some index =>
    decide (index = 1) ||
      pyContains (pyStrip ⟨(List.drop 1 (pySlice line 8 26).data).dropLast⟩) "Positioner" ||
      pyContains (pyStrip ⟨(List.drop 1 (pySlice line 8 26).data).dropLast⟩) "Detector"

set_option maxHeartbeats 2000000 in
/-- A successful description row always appends exactly one label, and
appends exactly one units entry when `ascRowAddsUnit` holds. -/
theorem ascDescStep_ok_lengths (ctypes : List (String × List String))
    (line : String) (labels : List String) (units : List (Option String))
    (cdescs : List (Int × List String))
    (labels' : List String) (units' : List (Option String))
    (cdescs' : List (Int × List String))
    (h : ascDescStep ctypes line labels units cdescs = .ok (labels', units', cdescs')) :
    labels'.length = labels.length + 1 ∧
      (ascRowAddsUnit line = true → units'.length = units.length + 1) := by
  unfold ascRowAddsUnit
  simp only [ascDescStep] at h
  repeat' (first | exact Except.noConfusion h | split at h)
  all_goals
    injection h with hT
  all_goals
    injection hT with h1 hT2
  all_goals
    injection hT2 with h2 h3
  all_goals
    subst h1
  all_goals
    subst h2
  all_goals
    refine ⟨by simp, fun hra => ?_⟩
  all_goals
    first
      | (exfalso
         rw [Bool.or_eq_true, Bool.or_eq_true] at hra
         rcases hra with (hra | hra) | hra <;> exact absurd hra (by assumption))
      | simp

/-- On success, the column-description loop appends one label per consumed
row, and one units entry per consumed row provided every consumed row
satisfies `ascRowAddsUnit`. The consumed rows are exactly the lines before
the first blank line. -/
theorem ascDescLoop_ok_lengths (ctypes : List (String × List String)) :
    ∀ (lines : List String) (labels : List String) (units : List (Option String))
      (cdescs : List (Int × List String)) (labs : List String)
      (uns : List (Option String)) (cds : List (Int × List String))
      (rest : List String),
      ascDescLoop ctypes lines labels units cdescs = .ok (labs, uns, cds, rest) →
      labs.length = labels.length + (lines.takeWhile (fun l => l != "\n")).length ∧
        ((∀ l ∈ lines.takeWhile (fun l => l != "\n"), ascRowAddsUnit l = true) →
          uns.length = units.length + (lines.takeWhile (fun l => l != "\n")).length) := by
  intro lines
  induction lines with
  | nil =>
    intro labels units cdescs labs uns cds rest h
    exact Except.noConfusion h
  | cons line tail ih =>
    intro labels units cdescs labs uns cds rest h
    by_cases hb : line = "\n"
    · subst hb
      simp only [ascDescLoop, if_pos rfl] at h
      injection h with hT
      obtain ⟨e1, e2, e3, e4⟩ :
          labels = labs ∧ units = uns ∧ cdescs = cds ∧ tail = rest := by
        refine ⟨congrArg (fun p => p.1) hT, ?_, ?_, ?_⟩
        · exact congrArg (fun p => p.2.1) hT
        · exact congrArg (fun p => p.2.2.1) hT
        · exact congrArg (fun p => p.2.2.2) hT
      subst e1; subst e2
      simp [List.takeWhile_cons]
    · simp only [ascDescLoop, if_neg hb] at h
      cases hstep : ascDescStep ctypes line labels units cdescs with
      | error e =>
        rw [hstep] at h
        exact Except.noConfusion h
      | ok val =>
        obtain ⟨l', u', c'⟩ := val
        rw [hstep] at h
        obtain ⟨ih1, ih2⟩ := ih l' u' c' labs uns cds rest h
        obtain ⟨s1, s2⟩ :=
          ascDescStep_ok_lengths ctypes line labels units cdescs l' u' c' hstep
        have hbne : (line != "\n") = true := by
          simp [bne, hb]
        have htw : (line :: tail).takeWhile (fun l => l != "\n") =
            line :: tail.takeWhile (fun l => l != "\n") := by
          simp [List.takeWhile_cons, hbne]
        constructor
        · rw [htw]
          simp only [List.length_cons]
          omega
        · intro hall
          rw [htw] at hall
          have hline : ascRowAddsUnit line = true := hall line (by simp)
          have htail : ∀ l ∈ tail.takeWhile (fun l => l != "\n"),
              ascRowAddsUnit l = true := by
            intro l hl
            exact hall l (by simp [hl])
          have h2 := ih2 htail
          have h3 := s2 hline
          rw [htw]
          simp only [List.length_cons]
          omega

/-- CLAIM C6 (amended): for every successfully parsed Format B (.asc) file,
`len(labels)` equals the number of column-description rows read from the
header (counting the synthetic Index row), and `len(units)` equals
`len(labels)` provided every description row is the index row or carries a
type token containing `"Positioner"` or `"Detector"`; rows of any other
declared type contribute a label but no units entry. -/
theorem c6_format_b_labels_units (fileName : String) (file : List String)
    (header_only : Bool) (out : AscOut)
    (h : parse_asc fileName file header_only = .ok out)
    (hrows : ∀ params ctypes rows,
      ascHeaderPhase fileName file = .ok (params, ctypes, rows) →
      ∀ l ∈ rows.takeWhile (fun l => l != "\n"), ascRowAddsUnit l = true) :
    out.labels.length = out.units.length ∧
      (∀ params ctypes rows,
        ascHeaderPhase fileName file = .ok (params, ctypes, rows) →
        out.labels.length = (rows.takeWhile (fun l => l != "\n")).length) := by
  unfold parse_asc at h
  simp only [bind, Except.bind] at h
  cases hhp : ascHeaderPhase fileName file with
  | error e =>
    simp only [hhp] at h
    exact Except.noConfusion h
  | ok r =>
    obtain ⟨params, ctypes, rows⟩ := r
    simp only [hhp] at h
    cases hdl : ascDescLoop ctypes rows [] [] [] with
    | error e =>
      simp only [hdl] at h
      exact Except.noConfusion h
    | ok r5 =>
      obtain ⟨labs, uns, cds, rest⟩ := r5
      simp only [hdl] at h
      obtain ⟨hl1, hl2⟩ := ascDescLoop_ok_lengths ctypes rows [] [] [] labs uns cds rest hdl
      have huns : uns.length = (rows.takeWhile (fun l => l != "\n")).length := by
        have := hl2 (hrows params ctypes rows hhp)
        simpa using this
      have hlabs : labs.length = (rows.takeWhile (fun l => l != "\n")).length := by
        simpa using hl1
      have hout : out.labels = labs ∧ out.units = uns := by
        simp only [pure, Except.pure] at h
        split at h
        · injection h with h1
          subst h1
          exact ⟨rfl, rfl⟩
        · cases hel : expectLine "# 1-D Scan Values\n" rest with
          | error e =>
            simp only [hel] at h
            exact Except.noConfusion h
          | ok body =>
            simp only [hel] at h
            cases hld : np_loadtxt_tab body with
            | error e =>
              simp only [hld] at h
              exact Except.noConfusion h
            | ok data =>
              simp only [hld] at h
              injection h with h1
              subst h1
              exact ⟨rfl, rfl⟩
      refine ⟨?_, ?_⟩
      · rw [hout.1, hout.2, hlabs, huns]
      · intro params' ctypes' rows' hhp'
        injection hhp' with hr
        obtain ⟨hq1, hq2, hq3⟩ :
            params = params' ∧ ctypes = ctypes' ∧ rows = rows' := by
          refine ⟨congrArg (fun p => p.1) hr, ?_, ?_⟩
          · exact congrArg (fun p => p.2.1) hr
          · exact congrArg (fun p => p.2.2) hr
        subst hq3
        rw [hout.1, hlabs]

/-- A `.asc` file identical to `ascSampleFile` except that it declares a
third column type `Trigger` and its third description row uses it. The
parser accepts the row (the type is declared) but appends no units entry
for it. -/
def ascTriggerFile : List String := [
  "## mda2ascii 0.3.2 generated output\n",
  "\n",
  "\n",
  "# MDA File Version = 1.3\n",
  "# Scan Number = 1\n",
  "# Overall scan dimension = 1-D\n",
  "# Total requested scan size = 3\n",
  "\n",
  "\n",
  "#  Extra PV: name, descr, values (, unit)\n",
  "\n",
  "# Extra PV 1: FOO, Foo descr, 1.5, V\n",
  "\n",
  "\n",
  "# 1-D Scan\n",
  "# Points completed = 3 of 3\n",
  "# Scanner = SR14ID01NEXSCAN:scan1\n",
  "# Scan time = Aug 01, 2024 10:00:00.000000\n",
  "\n",
  "#  Positioner: name, descr, step mode, unit, rdbk name, rdbk descr, rdbk unit\n",
  "#  Detector: name, descr, unit\n",
  "#  Trigger: name, descr\n",
  "\n",
  "# Column Descriptions:\n",
  "#    1  [     Index      ]\n",
  "#    2  [1-D Positioner 1]  SR14ID01PGM:LOCAL_SP, Mono setpoint, TABLE, eV, SR14ID01PGM:LOCAL_SP, Mono setpoint, eV\n",
  "#    3  [1-D Trigger    1]  SR14ID01TRIG, foo\n",
  "\n",
  "# 1-D Scan Values\n",
  "1\t1200.5\t42\n"]

/-- CLAIM C6 (counterexample): `ascTriggerFile` parses successfully but its
three column-description rows yield three labels and only two units
entries, refuting `len(labels) == len(units)` for every successfully
parsed Format B file. -/
theorem c6_format_b_counterexample :
    (parse_asc "t.asc" ascTriggerFile true).map
        (fun o => (o.labels.length, o.units.length)) = .ok (3, 2) ∧
      (3 : Nat) ≠ 2 :=
  ⟨rfl, by decide⟩

/-- The lines of the column-description block of `ascSampleFile`, as the
header phase leaves them. -/
def ascSampleRows : List String :=
  match ascHeaderPhase "t.asc" ascSampleFile with
  | .ok st => st.2.2
  | .error _ => []

/-- The dataset parsed from `ascSampleFile`. -/
def ascSampleOut : AscOut :=
  (parse_asc "t.asc" ascSampleFile true).toOption.getD ⟨none, [], [], []⟩

/-- Witness for `c6_format_b_labels_units` on the concrete file
`ascSampleFile`, whose rows are all Index/Positioner/Detector rows. -/
theorem c6_format_b_labels_units_witness :
    ascSampleOut.labels.length = ascSampleOut.units.length :=
  (c6_format_b_labels_units "t.asc" ascSampleFile true ascSampleOut rfl
    (by
      intro params ctypes rows hhp
      have hr : rows = ascSampleRows := by
        simp only [ascSampleRows, hhp]
      rw [hr]
      decide)).1

/-! ## Format A: `MEX2_NEXAFS.parse_xdi` (`MEX2.py`, lines 417–549) -/

/-- `file.readline()`: pop the next line, or `""` at end-of-file. -/
def readline : List String → String × List String
  | [] => ("", [])
  | l :: rest => (l, rest)

/-- `d[k] = v` on an insertion-ordered dictionary keyed by `Nat`. -/
def dictInsertNat {α : Type} (k : Nat) (v : α) : List (Nat × α) → List (Nat × α)
  | [] => [(k, v)]
  | (k', v') :: rest =>
    if k' = k then (k, v) :: rest else (k', v') :: dictInsertNat k v rest

/-- Decimal representation of a natural number (for Python f-strings). -/
def pyNatStrAux : Nat → Nat → List Char → List Char
  | 0, _, acc => acc
  | fuel + 1, n, acc =>
    let d := Char.ofNat (48 + n % 10)
    if n < 10 then d :: acc else pyNatStrAux fuel (n / 10) (d :: acc)

/-- Decimal representation of a natural number. -/
def pyNatStr (n : Nat) : String := ⟨pyNatStrAux (n + 1) n []⟩

/-- Python format `f"{i:4}"`: decimal digits right-aligned in width 4. -/
def pyPadLeft4 (n : Nat) : String :=
  ⟨List.replicate (4 - (pyNatStr n).data.length) ' ' ++ (pyNatStr n).data⟩

/-- Drop leading whitespace. -/
def pySkipWs (l : List Char) : List Char := l.dropWhile isPySpace

/-- Reads a quoted string literal after its opening quote `q`, up to the
closing quote. -/
def pyLitString (q : Char) : List Char → Option (String × List Char)
  | [] => none
  | c :: rest =>
    if c = q then some ("", rest)
    else
      match pyLitString q rest with
      | some (s, r) => some (⟨c :: s.data⟩, r)
      | none => none

/-- Reads the characters of an unquoted scalar up to a comma or closing
bracket. -/
def pyLitScalarChars : List Char → List Char × List Char
  | [] => ([], [])
  | c :: rest =>
    if c = ',' ∨ c = ']' then ([], c :: rest)
    else
      let r := pyLitScalarChars rest
      (c :: r.1, r.2)

/-- The single-quote character. -/
def squoteChar : Char := Char.ofNat 39

/-- The double-quote character. -/
def dquoteChar : Char := Char.ofNat 34

/-- One element of a Python list literal: a quoted string or a numeric
literal. -/
def pyLitElem (l : List Char) : Option (PyVal × List Char) :=
  match l with
  | [] => none
  | c :: rest =>
    if c = squoteChar ∨ c = dquoteChar then
      (pyLitString c rest).map (fun r => (.str r.1, r.2))
    else
      let r := pyLitScalarChars (c :: rest)
      let t := pyStrip ⟨r.1⟩
      match pyInt? t with
      | some n => some (.int n, r.2)
      | none =>
        match pyFloat? t with
        | some q => some (.float q, r.2)
        | none => none

/-- Element loop of a Python list literal (after the opening bracket). -/
def pyLitListAux : Nat → List Char → List PyVal → Option (List PyVal)
  | 0, _, _ => none
  | fuel + 1, l, acc =>
    match pySkipWs l with
    | [] => none
    | ']' :: rest => if (pySkipWs rest).isEmpty then some acc.reverse else none
    | l' =>
      match pyLitElem l' with
      | none => none
      | some (v, after) =>
        match pySkipWs after with
        | ',' :: rest2 => pyLitListAux fuel rest2 (v :: acc)
        | ']' :: rest2 =>
          if (pySkipWs rest2).isEmpty then some (v :: acc).reverse else none
        | _ => none

/-- `ast.literal_eval` restricted to list literals of quoted strings and
numbers, modelled from the Python standard-library documentation (the
function itself is not part of this repository). Returns `none` where
Python raises. -/
def pyLiteralEvalList (s : String) : Option (List PyVal) :=
  match pySkipWs s.data with
  | '[' :: rest => pyLitListAux (rest.length + 1) rest []
  | _ => none

/-- The mutable state of the `.xdi` initial-parameter loop: the parameter
record, the label list, the line counter `i`, and the (otherwise unused)
`column_descriptions` / `column_type_assignments` dictionaries. -/
structure XdiSt where
  params : List (String × PyVal)
  labels : List String
  i : Nat
  colDescs : List (Nat × (String × String × String))
  colTypes : List (Nat × String)
  deriving Repr

/-- The `(data, labels, units, params)` result of `parse_xdi`. The units
component is typed as optional because the source initialises `units = None`
and never assigns it. -/
structure XdiOut where
  data : Option (List (List ℚ))
  labels : List String
  units : Option (List String)
  params : List (String × PyVal)
  deriving Repr

/-- The `while` guard of the initial-parameter loop:
`"# " == line[0:2] and line != "# ///\n"`. -/
def xdiLoopGuard (line : String) : Bool :=
  pyStartsWith line "# " && line != "# ///\n"

/-- Inserts `Datapoints.Column.N` parameters, one per sample, in order
(`for i in range(len(samples)): params[f"Datapoints.Column.{i}"] = samples[i]`). -/
def xdiFanOut : List PyVal → Nat → List (String × PyVal) → List (String × PyVal)
  | [], _, params => params
  | v :: rest, i, params =>
    xdiFanOut rest (i + 1) (dictInsert ("Datapoints.Column." ++ pyNatStr i) v params)

/-- One iteration body of the initial-parameter loop (`MEX2.py`,
lines 464–502): split `line[2:].strip()` on the first `": "` and dispatch on
the parameter name (`Column.*`, `Describe.Column.*`, `Samples`, generic). -/
def xdiParamStep (line : String) (st : XdiSt) : Except PyErr XdiSt :=
  match pySplit1 ": " (pyStrip (pyDropStr line 2)) with
  | [param, value] =>
    if pyStartsWith param "Column." then
      .ok { st with labels := st.labels ++ [value],
                    params := dictInsert param (.str value) st.params,
                    i := st.i + 1 }
    else if pyStartsWith param "Describe.Column." then
      match dictGet? (pyReplace param "Describe." "") st.params with
      | none => .error .keyError
      | some (.int _) => .error .typeError
      | some (.float _) => .error .typeError
      | some (.str col_name) =>
        let value1 :=
          if pyContains value (col_name ++ " - ") then
            pyReplace value (col_name ++ " - ") ""
          else value
        let vd : String × Option String :=
          if pyContains value1 " -- " then
            match pySplit1 " -- " value1 with
            | [v, d] => (v, some d)
            | _ => (value1, none)
          else (value1, none)
        let descrEntry :=
          match vd.2 with
          | some d => col_name ++ " -- " ++ d
          | none => col_name
        .ok { st with
              params := dictInsert param (.str vd.1) st.params,
              colDescs := dictInsertNat st.i (vd.1, descrEntry, "") st.colDescs,
              colTypes :=
                dictInsertNat st.i ("1-D Detector" ++ pyPadLeft4 st.i) st.colTypes,
              i := st.i + 1 }
    else if param = "Samples" then
      match pyLiteralEvalList value with
      | none => .error (.valueError "malformed node or string")
      | some samples =>
        let samples := samples.map (fun v =>
          match v with
          | .str s => PyVal.str (pyStrip s)
          | v => v)
        let i' := (if samples.length > 0 then samples.length - 1 else st.i) + 1
        .ok { st with params := xdiFanOut samples 0 st.params, i := i' }
    else
      .ok { st with params := dictInsert param (.str value) st.params, i := st.i + 1 }
  | _ => .error (.valueError "not enough values to unpack")

/-- The initial-parameter loop (`MEX2.py`, lines 462–502): processes lines
while the guard holds; the first non-matching line (the expected `# ///`
sentinel) is left for the caller. -/
def xdiParamLoop : List String → XdiSt → Except PyErr (XdiSt × List String)
  | [], st => .ok (st, [])
  | line :: rest, st =>
    if xdiLoopGuard line then
      match xdiParamStep line st with
      | .error e => .error e
      | .ok st' => xdiParamLoop rest st'
    else
      .ok (st, line :: rest)

/-- The optional vendor conversion-preset line followed by the mandatory
`#--------` separator (`MEX2.py`, lines 520–528): tolerate the preset line's
presence or absence but require the separator. -/
def xdiConvLines (line : String) (rest : List String) : Except PyErr (List String) :=
  if line = "# xdi from default mda2xdi preset for mex2.\n" then
    let r := readline rest
    if r.1 = "#--------\n" then .ok r.2
    else .error (.assertionError "Conversion line")
  else if line = "#--------\n" then .ok rest
  else .error (.assertionError "Conversion line")

/-- `np.loadtxt(lines)` with whitespace delimiters, modelled from the numpy
API as in `np_loadtxt_tab`. -/
def np_loadtxt_ws (lines : List String) : Except PyErr (List (List ℚ)) :=
  let rows := (lines.map pyStrip).filter (fun l => l ≠ "" && !pyStartsWith l "#")
  match rows.mapM (fun l => (pySplitWs l).mapM pyFloat?) with
  | none => .error (.valueError "could not convert string to float")
  | some rws =>
    if rws.all (fun r => r.length = (rws.headD []).length) then .ok rws
    else .error (.valueError "wrong number of columns")

/-- Everything of `parse_xdi` after the `# ///` sentinel (`MEX2.py`,
lines 508–549): sample name (stored as `Sample` and `Comment 1`), optional
second comment, conversion preset/separator lines, the whitespace-delimited
column-header line that overrides the collected labels, and the numeric body
unless `header_only`. -/
def xdiTail (params0 : List (String × PyVal)) (lines : List String)
    (header_only : Bool) : Except PyErr XdiOut :=
  let r1 := readline lines
  let sample_name := pyStrip (pyDropStr r1.1 2)
  let params := dictInsert "Comment 1" (.str sample_name)
    (dictInsert "Sample" (.str sample_name) params0)
  let r2 := readline r1.2
  let params :=
    if r2.1 ≠ "# \n" then
      dictInsert "Comment 2" (.str (pyStrip (pyDropStr r2.1 2))) params
    else params
  let r3 := readline r2.2
  match xdiConvLines r3.1 r3.2 with
  | .error e => .error e
  | .ok lines4 =>
    let r5 := readline lines4
    if pySlice r5.1 0 2 = "# " then
      let labels := (pySplitWs (pyStrip (pyDropStr r5.1 2))).map pyStrip
      if header_only then .ok ⟨none, labels, none, params⟩
      else
        match np_loadtxt_ws r5.2 with
        | .error e => .error e
        | .ok data => .ok ⟨some data, labels, none, params⟩
    else .error (.assertionError "Start of data columns")

/-- `MEX2_NEXAFS.parse_xdi` (`MEX2.py`, lines 417–549). -/
def parse_xdi (fileName : String) (file : List String) (header_only : Bool) :
    Except PyErr XdiOut := do
  if ¬ pyEndsWith fileName ".xdi" then
    throw (.valueError ("File " ++ fileName ++ " is not a valid .xdi file."))
  let rest ← expectLine "# XDI/1.0\n" file
  let r ← xdiParamLoop rest ⟨[], [], 0, [], []⟩
  let rest2 ← expectLine "# ///\n" r.2
  xdiTail r.1.params rest2 header_only

/-! ## Claims C8 and C9: `.xdi` parameter fan-out and absent units -/

/-- A list is a prefix of itself followed by anything. -/
theorem listIsPrefixOf_append (p t : List Char) : p.isPrefixOf (p ++ t) = true := by
  induction p with
  | nil => simp [List.isPrefixOf]
  | cons c cs ih => simp [List.isPrefixOf, ih]

/-- A string concatenation starts with its first component. -/
theorem pyStartsWith_append (p s : String) : pyStartsWith (p ++ s) p = true := by
  unfold pyStartsWith
  have hd : (p ++ s).data = p.data ++ s.data := rfl
  rw [hd]
  exact listIsPrefixOf_append p.data s.data

/-- Whether processing a parameter line can write parameter key `k`: either
its name equals `k`, or it is the `Samples` line and `k` is one of the
`Datapoints.Column.N` keys. -/
def xdiLineWritesKey (k : String) (line : String) : Bool :=
  match pySplit1 ": " (pyStrip (pyDropStr line 2)) with
  | [param, _] => param == k || (param == "Samples" && pyStartsWith k "Datapoints.Column.")
  | _ => false

/-- Fanning out samples only writes `Datapoints.Column.*` keys. -/
theorem xdiFanOut_preserves (k : String)
    (hk : pyStartsWith k "Datapoints.Column." = false) :
    ∀ (samples : List PyVal) (i : Nat) (params : List (String × PyVal)),
      dictGet? k (xdiFanOut samples i params) = dictGet? k params := by
  intro samples
  induction samples with
  | nil => intro i params; rfl
  | cons v rest ih =>
    intro i params
    rw [xdiFanOut, ih]
    apply dictGet?_insert_ne
    intro hkey
    rw [← hkey, pyStartsWith_append] at hk
    exact Bool.noConfusion hk

/-- Processing one parameter line preserves the lookup of any key the line
does not write. -/
theorem xdiParamStep_preserves (k line : String) (st st' : XdiSt)
    (h : xdiParamStep line st = .ok st')
    (hw : xdiLineWritesKey k line = false) :
    dictGet? k st'.params = dictGet? k st.params := by
  unfold xdiParamStep at h
  split at h
  case h_2 => exact Except.noConfusion h
  case h_1 param value heq =>
    unfold xdiLineWritesKey at hw
    rw [heq] at hw
    simp only [Bool.or_eq_false_iff, Bool.and_eq_false_iff, beq_eq_false_iff_ne] at hw
    obtain ⟨hwk, hws⟩ := hw
    split at h
    · injection h with h1
      subst h1
      exact dictGet?_insert_ne _ _ _ _ hwk
    · split at h
      · split at h
        · exact Except.noConfusion h
        · exact Except.noConfusion h
        · exact Except.noConfusion h
        · injection h with h1
          subst h1
          exact dictGet?_insert_ne _ _ _ _ hwk
      · split at h
        next hsam =>
          split at h
          · exact Except.noConfusion h
          · injection h with h1
            subst h1
            have hkk : pyStartsWith k "Datapoints.Column." = false := by
              rcases hws with hws | hws
              · exact absurd hsam hws
              · exact hws
            exact xdiFanOut_preserves k hkk _ _ _
        next hsam =>
          injection h with h1
          subst h1
          exact dictGet?_insert_ne _ _ _ _ hwk

/-- The parameter loop preserves the lookup of any key no consumed line
writes. The consumed lines are exactly the prefix satisfying the loop
guard. -/
theorem xdiParamLoop_preserves (k : String) :
    ∀ (lines : List String) (st out : XdiSt) (rest : List String),
      xdiParamLoop lines st = .ok (out, rest) →
      (∀ l ∈ lines.takeWhile xdiLoopGuard, xdiLineWritesKey k l = false) →
      dictGet? k out.params = dictGet? k st.params := by
  intro lines
  induction lines with
  | nil =>
    intro st out rest h hall
    injection h with h1
    rw [Prod.mk.injEq] at h1
    rw [← h1.1]
  | cons line tail ih =>
    intro st out rest h hall
    by_cases hg : xdiLoopGuard line = true
    · rw [xdiParamLoop, if_pos hg] at h
      cases hstep : xdiParamStep line st with
      | error e =>
        rw [hstep] at h
        exact Except.noConfusion h
      | ok st' =>
        rw [hstep] at h
        have htw : (line :: tail).takeWhile xdiLoopGuard =
            line :: tail.takeWhile xdiLoopGuard := by
          simp [List.takeWhile_cons, hg]
        have hline : xdiLineWritesKey k line = false := by
          refine hall line ?_
          rw [htw]
          simp
        have htail : ∀ l ∈ tail.takeWhile xdiLoopGuard,
            xdiLineWritesKey k l = false := by
          intro l hl
          refine hall l ?_
          rw [htw]
          simp [hl]
        rw [ih st' out rest h htail]
        exact xdiParamStep_preserves k line st st' hstep hline
    · rw [xdiParamLoop, if_neg hg] at h
      injection h with h1
      rw [Prod.mk.injEq] at h1
      rw [← h1.1]

/-- The post-sentinel phase returns `units = None` on every success path
(the source initialises `units = None` and never assigns it). -/
theorem xdiTail_units_none (params0 : List (String × PyVal))
    (lines : List String) (header_only : Bool) (out : XdiOut)
    (h : xdiTail params0 lines header_only = .ok out) : out.units = none := by
  simp only [xdiTail] at h
  repeat' (first | exact Except.noConfusion h | split at h)
  all_goals
    injection h with h1
  all_goals
    subst h1
  all_goals
    rfl

/-- The post-sentinel phase only writes the parameter keys `Sample`,
`Comment 1` and `Comment 2`. -/
theorem xdiTail_preserves (k : String) (params0 : List (String × PyVal))
    (lines : List String) (header_only : Bool) (out : XdiOut)
    (h : xdiTail params0 lines header_only = .ok out)
    (h1 : k ≠ "Sample") (h2 : k ≠ "Comment 1") (h3 : k ≠ "Comment 2") :
    dictGet? k out.params = dictGet? k params0 := by
  have g1 : ∀ (v : PyVal) (d : List (String × PyVal)),
      dictGet? k (dictInsert "Sample" v d) = dictGet? k d :=
    fun v d => dictGet?_insert_ne _ _ _ _ (Ne.symm h1)
  have g2 : ∀ (v : PyVal) (d : List (String × PyVal)),
      dictGet? k (dictInsert "Comment 1" v d) = dictGet? k d :=
    fun v d => dictGet?_insert_ne _ _ _ _ (Ne.symm h2)
  have g3 : ∀ (v : PyVal) (d : List (String × PyVal)),
      dictGet? k (dictInsert "Comment 2" v d) = dictGet? k d :=
    fun v d => dictGet?_insert_ne _ _ _ _ (Ne.symm h3)
  simp only [xdiTail] at h
  repeat' (first | exact Except.noConfusion h | split at h)
  all_goals
    injection h with h1'
  all_goals
    subst h1'
  all_goals
    simp only [g1, g2, g3]

/-- CLAIM C9: for every input file and both values of the `header_only`
flag, a successful `parse_xdi` returns the units component as absent
(`None`), never as a list. -/
theorem c9_xdi_units_absent (fileName : String) (file : List String)
    (header_only : Bool) (out : XdiOut)
    (h : parse_xdi fileName file header_only = .ok out) :
    out.units = none := by
  unfold parse_xdi at h
  simp only [bind, Except.bind] at h
  repeat'
    (first
      | exact Except.noConfusion h
      | exact xdiTail_units_none _ _ _ _ h
      | split at h)

/-- A representative `.xdi` header containing the `Samples` line. -/
def xdiSamplePost : List String := [
  "# ///\n",
  "# MySample\n",
  "# \n",
  "#--------\n",
  "#   energy   i0\n",
  "8000.0 2.5\n"]

/-- The dataset parsed from the representative `.xdi` file. -/
def xdiSampleOut : XdiOut :=
  (parse_xdi "t.xdi"
      ("# XDI/1.0\n" :: "# Samples: ['a','b']\n" :: xdiSamplePost)
      true).toOption.getD ⟨none, [], none, []⟩

/-- Witness for `c9_xdi_units_absent` on the representative file. -/
theorem c9_xdi_units_absent_witness : xdiSampleOut.units = none :=
  c9_xdi_units_absent "t.xdi"
    ("# XDI/1.0\n" :: "# Samples: ['a','b']\n" :: xdiSamplePost) true
    xdiSampleOut rfl

/-- Running the parameter loop over a prefix of guard-satisfying parameter
lines followed by further lines: on success, the loop over the full list
agrees with the loop over the remainder started from the state reached
after the prefix. -/
theorem xdiParamLoop_append_guard (rest : List String) :
    ∀ (pre : List String) (st out : XdiSt) (rem : List String),
      (∀ l ∈ pre, xdiLoopGuard l = true) →
      xdiParamLoop (pre ++ rest) st = .ok (out, rem) →
      ∃ st', xdiParamLoop rest st' = .ok (out, rem) := by
  intro pre
  induction pre with
  | nil =>
    intro st out rem hpre h
    exact ⟨st, h⟩
  | cons l pre' ih =>
    intro st out rem hpre h
    rw [List.cons_append, xdiParamLoop, if_pos (hpre l (by simp))] at h
    cases hstep : xdiParamStep l st with
    | error e =>
      rw [hstep] at h
      exact Except.noConfusion h
    | ok st1 =>
      simp only [hstep] at h
      exact ih st1 out rem (fun x hx => hpre x (by simp [hx])) h

/-- CLAIM C8: a Format A header whose parameter block contains the line
`# Samples: ['a','b']` anywhere — arbitrary parameter lines before it, and
no later parameter line re-writing the fanned-out keys (a later write would
overwrite them, per the record's last-write-wins semantics) — yields
`params["Datapoints.Column.0"] == "a"` and
`params["Datapoints.Column.1"] == "b"`: the literal list is fanned out into
one indexed parameter per element, in order. -/
theorem c8_xdi_samples_fanout (fileName : String) (pre post : List String)
    (header_only : Bool) (out : XdiOut)
    (h : parse_xdi fileName
        ("# XDI/1.0\n" :: (pre ++ "# Samples: ['a','b']\n" :: post))
        header_only = .ok out)
    (hpre : ∀ l ∈ pre, xdiLoopGuard l = true)
    (hpost : ∀ l ∈ post.takeWhile xdiLoopGuard,
      xdiLineWritesKey "Datapoints.Column.0" l = false ∧
      xdiLineWritesKey "Datapoints.Column.1" l = false) :
    dictGet? "Datapoints.Column.0" out.params = some (.str "a") ∧
      dictGet? "Datapoints.Column.1" out.params = some (.str "b") := by
  unfold parse_xdi at h
  simp only [bind, Except.bind, pure, Except.pure] at h
  split at h
  · exact Except.noConfusion h
  · have hone : expectLine "# XDI/1.0\n"
        ("# XDI/1.0\n" :: (pre ++ "# Samples: ['a','b']\n" :: post)) =
        Except.ok (pre ++ "# Samples: ['a','b']\n" :: post) := rfl
    simp only [hone] at h
    cases hlp : xdiParamLoop (pre ++ "# Samples: ['a','b']\n" :: post)
        (⟨[], [], 0, [], []⟩ : XdiSt) with
    | error e =>
      rw [hlp] at h
      exact Except.noConfusion h
    | ok r =>
      obtain ⟨stL, rem⟩ := r
      simp only [hlp] at h
      obtain ⟨st', hlp'⟩ :=
        xdiParamLoop_append_guard ("# Samples: ['a','b']\n" :: post) pre
          ⟨[], [], 0, [], []⟩ stL rem hpre hlp
      rw [xdiParamLoop,
        if_pos (by decide : xdiLoopGuard "# Samples: ['a','b']\n" = true)] at hlp'
      have hstep : xdiParamStep "# Samples: ['a','b']\n" st' =
          .ok { st' with
                params := dictInsert "Datapoints.Column.1" (PyVal.str "b")
                  (dictInsert "Datapoints.Column.0" (PyVal.str "a") st'.params),
                i := 2 } := rfl
      simp only [hstep] at hlp'
      have hp0 : dictGet? "Datapoints.Column.0" stL.params =
          some (PyVal.str "a") := by
        rw [xdiParamLoop_preserves "Datapoints.Column.0" post _ stL rem hlp'
          (fun l hl => (hpost l hl).1)]
        rw [dictGet?_insert_ne _ _ _ _ (by decide), dictGet?_insert_self]
      have hp1 : dictGet? "Datapoints.Column.1" stL.params =
          some (PyVal.str "b") := by
        rw [xdiParamLoop_preserves "Datapoints.Column.1" post _ stL rem hlp'
          (fun l hl => (hpost l hl).2)]
        rw [dictGet?_insert_self]
      cases hse : expectLine "# ///\n" rem with
      | error e =>
        simp only [hse] at h
        exact Except.noConfusion h
      | ok rest2 =>
        simp only [hse] at h
        constructor
        · rw [xdiTail_preserves "Datapoints.Column.0" stL.params rest2
            header_only out h (by decide) (by decide) (by decide)]
          exact hp0
        · rw [xdiTail_preserves "Datapoints.Column.1" stL.params rest2
            header_only out h (by decide) (by decide) (by decide)]
          exact hp1

/-- Parameter lines preceding the `Samples` line in the representative
file. -/
def xdiSamplePre : List String := ["# Element.symbol: S\n", "# Column.1: energy\n"]

/-- The dataset parsed from the representative `.xdi` file with parameter
lines before the `Samples` line. -/
def xdiSampleOut2 : XdiOut :=
  (parse_xdi "t.xdi"
      ("# XDI/1.0\n" :: (xdiSamplePre ++ "# Samples: ['a','b']\n" :: xdiSamplePost))
      true).toOption.getD ⟨none, [], none, []⟩

/-- Witness for `c8_xdi_samples_fanout` on the representative file, with the
`Samples` line preceded by other parameter lines. -/
theorem c8_xdi_samples_fanout_witness :
    dictGet? "Datapoints.Column.0" xdiSampleOut2.params = some (.str "a") ∧
      dictGet? "Datapoints.Column.1" xdiSampleOut2.params = some (.str "b") :=
  c8_xdi_samples_fanout "t.xdi" xdiSamplePre xdiSamplePost true xdiSampleOut2
    rfl (by decide) (by decide)


/-! ## Binary scan format: `MEX2_NEXAFS.parse_mda_2024_04` (`MEX2.py`, lines 551–745)

The external `MDAFileReader` (in `pyNexafs.utils.mda`, outside the three
source files) is modelled as the structured content it surfaces: header and
file parameters, per-dimension scan descriptors (positioners/detectors) and
numeric arrays. The interactive `EnergyBinReducerDialog` collaborator is
modelled by its outcome: `some domain` when the user confirms a domain,
`none` when the dialog is cancelled. The process-wide class attribute
`reduction_bin_domain` is threaded as explicit state (`cache` in /
`cache` out), and the run records whether the dialog was invoked and which
`bin_domain` was passed to `reduce_by_sum`. -/

/-- A positioner descriptor of one MDA scan dimension. -/
structure MdaPositioner where
  name : String
  desc : String
  step_mode : String
  unit : String
  readback_name : String
  readback_desc : String
  readback_unit : String
  deriving DecidableEq, Repr

/-- A detector descriptor of one MDA scan dimension. -/
structure MdaDetector where
  name : String
  desc : String
  unit : String
  deriving DecidableEq, Repr

/-- One MDA scan dimension's descriptors. -/
structure MdaScan where
  positioners : List MdaPositioner
  detectors : List MdaDetector
  deriving DecidableEq, Repr

/-- Modelled from the spec: `scan.labels()` of the external binary reader
supplies the PV names of the dimension's positioner and detector
descriptors (§4.3); used only for the fluorescence-channel validation at
`MEX2.py` line 629. -/
def MdaScan.labels (s : MdaScan) : List String :=
  s.positioners.map (fun p => p.name) ++ s.detectors.map (fun d => d.name)

/-- The secondary (rows × bins × channels) dimension of an `.mda` file. -/
structure MdaDim2 where
  scan : MdaScan
  array : List (List (List ℚ))
  deriving Repr

/-- An `.mda` file as surfaced by the external binary reader. `second`
combines `mda_arrays[1]`/`mda_scans[1]`, which the reader produces
together. -/
structure MdaFile where
  name : String
  header : List (String × String)
  params : List (String × String)
  scan1 : MdaScan
  array1 : List (List ℚ)
  second : Option MdaDim2
  deriving Repr

/-- The expected fluorescence-detector channel names (`MEX2.py`,
lines 623–628). -/
def florescence_labels : List String :=
  ["MEX2ES01DPP01:ch1:W:ArrayData",
   "MEX2ES01DPP01:ch2:W:ArrayData",
   "MEX2ES01DPP01:ch3:W:ArrayData",
   "MEX2ES01DPP01:ch4:W:ArrayData"]

/-- Modelled from the spec: sum mode of the external `reducer`
(`pyNexafs.utils.reduction`, outside the three source files) selects the
bins whose calibrated energy lies in the half-open window `[start, end)`
and collapses both the bin and the channel dimension, producing one scalar
per scan row (§4.5). -/
def reduce_by_sum_all (binE : List ℚ) (dom : ℚ × ℚ)
    (dataset : List (List (List ℚ))) : List ℚ :=
  dataset.map (fun row =>
    (((row.zip binE).filter (fun p => decide (dom.1 ≤ p.2 ∧ p.2 < dom.2))).map
      (fun p => p.1.sum)).sum)

/-- Pointwise sum of two per-channel vectors. -/
def addVec (a b : List ℚ) : List ℚ := List.zipWith (· + ·) a b

/-- Pointwise sum of a list of per-channel vectors. -/
def sumVecs : List (List ℚ) → List ℚ
  | [] => []
  | [v] => v
  | v :: vs => addVec v (sumVecs vs)

/-- Modelled from the spec: per-channel mode of the external `reducer`
collapses only the bin dimension, preserving one value per channel per scan
row (§4.5). -/
def reduce_by_sum_bins (binE : List ℚ) (dom : ℚ × ℚ)
    (dataset : List (List (List ℚ))) : List (List ℚ) :=
  dataset.map (fun row =>
    sumVecs (((row.zip binE).filter (fun p => decide (dom.1 ≤ p.2 ∧ p.2 < dom.2))).map
      (fun p => p.1)))

/-- The merged positioner sequence: dimension 1's positioners, then
dimension 2's when present (`MEX2.py`, lines 678–684). -/
def mdaPositioners (f : MdaFile) : List MdaPositioner :=
  f.scan1.positioners ++
    (match f.second with
     | some d2 => d2.scan.positioners
     | none => [])

/-- The merged detector sequence (`MEX2.py`, lines 678–684). -/
def mdaDetectors (f : MdaFile) : List MdaDetector :=
  f.scan1.detectors ++
    (match f.second with
     | some d2 => d2.scan.detectors
     | none => [])

/-- The merged label sequence: all positioner names, then all detector
names (`MEX2.py`, lines 723–729). -/
def mdaLabels (f : MdaFile) : List String :=
  (mdaPositioners f).map (fun p => p.name) ++ (mdaDetectors f).map (fun d => d.name)

/-- The merged unit sequence (`MEX2.py`, lines 723–729). -/
def mdaUnits (f : MdaFile) : List String :=
  (mdaPositioners f).map (fun p => p.unit) ++ (mdaDetectors f).map (fun d => d.unit)

/-- The synthesized `column_types` parameter (`MEX2.py`, lines 686–701). -/
def mdaColumnTypes : List (String × List String) :=
  [("Positioner",
    ["name", "descr", "step mode", "unit", "rdbk name", "rdbk descr", "rdbk unit"]),
   ("Detector", ["name", "descr", "unit"])]

/-- The synthesized `column_descriptions` parameter: positioners indexed
from 0, detectors following (`MEX2.py`, lines 702–719). -/
def mdaColumnDescriptions (f : MdaFile) : List (Nat × List String) :=
  ((mdaPositioners f).enum.map (fun ip =>
    (ip.1, [ip.2.name, ip.2.desc, ip.2.step_mode, ip.2.unit,
            ip.2.readback_name, ip.2.readback_desc, ip.2.readback_unit]))) ++
  ((mdaDetectors f).enum.map (fun id' =>
    (id'.1 + (mdaPositioners f).length, [id'.2.name, id'.2.desc, id'.2.unit])))

/-- The string-valued parameter record: MDA header then file parameters,
with `created` copied from the scan-time PV when present (`MEX2.py`,
lines 609–610 and 741–743). -/
def mdaParams (f : MdaFile) : List (String × String) :=
  let p := f.header.foldl (fun acc kv => dictInsert kv.1 kv.2 acc) []
  let p := f.params.foldl (fun acc kv => dictInsert kv.1 kv.2 acc) p
  match dictGet? "MEX1ES01GLU01:MEX_TIME" p with
  | some v => dictInsert "created" v p
  | none => p

/-- The `(data, labels, units, params)` result of an `.mda` parse. The
heterogeneous `column_types` / `column_descriptions` parameter values are
carried as separate fields of the record. -/
structure MdaOut where
  data : Option (List (List ℚ))
  labels : List String
  units : List String
  params : List (String × String)
  column_types : List (String × List String)
  column_descriptions : List (Nat × List String)
  deriving Repr

/-- One run of `parse_mda_2024_04`: its outcome, the class-level cache
`reduction_bin_domain` after the call, whether the interactive dialog was
invoked, and the `bin_domain` argument passed to `reduce_by_sum` (if a
reduction was performed). -/
structure MdaRun where
  outcome : Except PyErr MdaOut
  cache : Option (ℚ × ℚ)
  dialogShown : Bool
  usedDomain : Option (ℚ × ℚ)

/-- The domain-resolution logic (`MEX2.py`, lines 638–661): an explicit
domain overwrites the cache; otherwise a non-empty cache is reused when
`use_recent_binning` is set; otherwise the dialog is invoked, storing the
confirmed domain or raising on cancellation. Returns the domain passed to
`reduce_by_sum` (always the class attribute after resolution), the new
cache, and whether the dialog ran. -/
def mdaResolveDomain (cache : Option (ℚ × ℚ)) (use_recent_binning : Bool)
    (energy_bin_domain : Option (ℚ × ℚ)) (dialog : Option (ℚ × ℚ)) :
    Except PyErr ((ℚ × ℚ) × Option (ℚ × ℚ) × Bool) :=
  match energy_bin_domain with
  | some d => .ok (d, some d, false)
  | none =>
    match use_recent_binning, cache with
    | true, some c => .ok (c, some c, false)
    | _, _ =>
      match dialog with
      | some d => .ok (d, some d, true)
      | none => .error (.valueError "No binning settings selected.")

/-- `MEX2_NEXAFS.parse_mda_2024_04` (`MEX2.py`, lines 551–745). -/
def parse_mda_2024_04 (cache : Option (ℚ × ℚ))
    (header_only use_recent_binning : Bool)
    (energy_bin_domain : Option (ℚ × ℚ)) (f : MdaFile)
    (dialog : Option (ℚ × ℚ)) : MdaRun :=
  if ¬ pyEndsWith f.name ".mda" then
    ⟨.error (.valueError ("File " ++ f.name ++ " is not a valid .mda file.")),
      cache, false, none⟩
  else if header_only then
    ⟨.ok ⟨none, mdaLabels f, mdaUnits f, mdaParams f, mdaColumnTypes,
        mdaColumnDescriptions f⟩,
      cache, false, none⟩
  else
    match f.second with
    | none =>
      ⟨.ok ⟨some f.array1, mdaLabels f, mdaUnits f, mdaParams f, mdaColumnTypes,
          mdaColumnDescriptions f⟩,
        cache, false, none⟩
    | some d2 =>
      if d2.scan.labels ≠ florescence_labels then
        ⟨.error (.assertionError "fluorescence channel labels"), cache, false, none⟩
      else
        let dataset := d2.array.map (fun row =>
          (row.drop INTERESTING_BINS_IDX.1).take
            (INTERESTING_BINS_IDX.2 - INTERESTING_BINS_IDX.1))
        let bin_e := INTERESTING_BINS_ENERGIES
        match mdaResolveDomain cache use_recent_binning energy_bin_domain dialog with
        | .error e => ⟨.error e, cache, true, none⟩
        | .ok (dom, cache1, shown) =>
          let reduced_summed_data := reduce_by_sum_all bin_e dom dataset
          let reduced_single_detector_data := reduce_by_sum_bins bin_e dom dataset
          if reduced_summed_data.length = f.array1.length ∧
              reduced_single_detector_data.length = f.array1.length then
            ⟨.ok ⟨some (List.zipWith (fun r p => r ++ p.1 ++ [p.2]) f.array1
                  (reduced_single_detector_data.zip reduced_summed_data)),
                mdaLabels f ++ ["Florescence Sum (Reduced)"],
                mdaUnits f ++ ["a.u."], mdaParams f, mdaColumnTypes,
                mdaColumnDescriptions f⟩,
              cache1, shown, some dom⟩
          else
            ⟨.error (.assertionError "reduced row count"), cache1, shown, some dom⟩

/-- The last element of a list extended by one element. -/
theorem getLast?_append_singleton {α : Type} (l : List α) (a : α) :
    (l ++ [a]).getLast? = some a := by
  induction l with
  | nil => rfl
  | cons x xs ih =>
    cases hxs : xs ++ [a] with
    | nil => exact absurd hxs (by simp)
    | cons y ys =>
      rw [List.cons_append, hxs, List.getLast?_cons_cons, ← hxs, ih]

/-- CLAIM C2: with no explicit domain argument, the use-recent-binning flag
set and a non-empty cache, the reduction uses exactly the cached domain, the
interactive dialog is never invoked, and the cache is unchanged by the
call. -/
theorem c2_cached_binning_reused (c : ℚ × ℚ) (f : MdaFile) (d2 : MdaDim2)
    (dialog : Option (ℚ × ℚ))
    (hname : pyEndsWith f.name ".mda" = true)
    (hsec : f.second = some d2)
    (hlab : d2.scan.labels = florescence_labels) :
    (parse_mda_2024_04 (some c) false true none f dialog).usedDomain = some c ∧
      (parse_mda_2024_04 (some c) false true none f dialog).dialogShown = false ∧
      (parse_mda_2024_04 (some c) false true none f dialog).cache = some c := by
  unfold parse_mda_2024_04
  rw [hsec]
  simp only [hname, hlab, mdaResolveDomain]
  split
  · next hc => exact absurd trivial hc
  · split
    · next hc => exact absurd hc (by decide)
    · split
      · next hc => exact absurd rfl hc
      · split <;> exact ⟨rfl, rfl, rfl⟩

/-- CLAIM C3: whenever the explicit-domain path of an `.mda` parse is taken
(a secondary array is present, the body is read, and an explicit
`energy_bin_domain` is supplied), the class-level cache afterwards equals
exactly the supplied domain — overwritten, never merged — for every
previous cache value. -/
theorem c3_explicit_domain_overwrites_cache (cache : Option (ℚ × ℚ))
    (urb : Bool) (d : ℚ × ℚ) (f : MdaFile) (d2 : MdaDim2)
    (dialog : Option (ℚ × ℚ))
    (hname : pyEndsWith f.name ".mda" = true)
    (hsec : f.second = some d2)
    (hlab : d2.scan.labels = florescence_labels) :
    (parse_mda_2024_04 cache false urb (some d) f dialog).cache = some d := by
  unfold parse_mda_2024_04
  rw [hsec]
  simp only [hname, hlab, mdaResolveDomain]
  split
  · next hc => exact absurd trivial hc
  · split
    · next hc => exact absurd hc (by decide)
    · split
      · next hc => exact absurd rfl hc
      · split <;> rfl

/-- CLAIM C7: if the interactive domain-selection dialog is cancelled (no
explicit domain, and either cache reuse is declined or the cache is empty),
the parse fails with the `ValueError("No binning settings selected.")`
abort — the `UserCancelled` failure — and no partial dataset is returned;
the dialog was indeed the path taken. -/
theorem c7_dialog_cancel_aborts (cache : Option (ℚ × ℚ)) (urb : Bool)
    (f : MdaFile) (d2 : MdaDim2)
    (hname : pyEndsWith f.name ".mda" = true)
    (hsec : f.second = some d2)
    (hlab : d2.scan.labels = florescence_labels)
    (hnc : urb = false ∨ cache = none) :
    (parse_mda_2024_04 cache false urb none f none).outcome =
      .error (.valueError "No binning settings selected.") ∧
      (parse_mda_2024_04 cache false urb none f none).dialogShown = true := by
  unfold parse_mda_2024_04
  rw [hsec]
  simp only [hname, hlab, mdaResolveDomain]
  split
  · next hc => exact absurd trivial hc
  · split
    · next hc => exact absurd hc (by decide)
    · split
      · next hc => exact absurd rfl hc
      · rcases hnc with hnc | hnc
        · subst hnc
          exact ⟨rfl, rfl⟩
        · subst hnc
          cases urb
          · exact ⟨rfl, rfl⟩
          · exact ⟨rfl, rfl⟩

/-- CLAIM C10: on a file with no secondary channel×bin array, no reduction
is performed (no domain is passed to the reducer, the dialog never runs),
no reduced columns or labels are appended, and the cache is unchanged —
for every `header_only` flag and even when an explicit `energy_bin_domain`
is supplied. -/
theorem c10_no_secondary_frame (cache : Option (ℚ × ℚ)) (ho urb : Bool)
    (ebd dialog : Option (ℚ × ℚ)) (f : MdaFile)
    (hname : pyEndsWith f.name ".mda" = true)
    (hsec : f.second = none) :
    (parse_mda_2024_04 cache ho urb ebd f dialog).cache = cache ∧
      (parse_mda_2024_04 cache ho urb ebd f dialog).dialogShown = false ∧
      (parse_mda_2024_04 cache ho urb ebd f dialog).usedDomain = none ∧
      (parse_mda_2024_04 cache ho urb ebd f dialog).outcome =
        .ok ⟨(if ho then none else some f.array1), mdaLabels f, mdaUnits f,
          mdaParams f, mdaColumnTypes, mdaColumnDescriptions f⟩ := by
  unfold parse_mda_2024_04
  simp only [hname]
  split
  · next hc => exact absurd trivial hc
  · cases ho
    · rw [hsec]
      exact ⟨rfl, rfl, rfl, rfl⟩
    · exact ⟨rfl, rfl, rfl, rfl⟩

/-- CLAIM C5 (amended): whenever an `.mda` parse performs an energy-bin
reduction and succeeds, the summed reduced column appended to the dataset
carries label exactly `"Florescence Sum (Reduced)"` (the misspelling is the
code's own, also used in its `COLUMN_ASSIGNMENTS`) and unit exactly
`"a.u."`. -/
theorem c5_reduced_column_label_unit (cache : Option (ℚ × ℚ)) (urb : Bool)
    (ebd dialog : Option (ℚ × ℚ)) (f : MdaFile) (d2 : MdaDim2) (out : MdaOut)
    (hsec : f.second = some d2)
    (h : (parse_mda_2024_04 cache false urb ebd f dialog).outcome = .ok out) :
    out.labels.getLast? = some "Florescence Sum (Reduced)" ∧
      out.units.getLast? = some "a.u." := by
  simp only [parse_mda_2024_04, hsec] at h
  split at h
  · exact Except.noConfusion h
  · split at h
    · next hc => exact absurd hc (by decide)
    · split at h
      · exact Except.noConfusion h
      · split at h
        · exact Except.noConfusion h
        · split at h
          · injection h with h1
            subst h1
            exact ⟨getLast?_append_singleton _ _, getLast?_append_singleton _ _⟩
          · exact Except.noConfusion h

/-- The secondary dimension of a representative `.mda` file: the four
expected fluorescence channels, two scan rows. -/
def mdaSampleDim2 : MdaDim2 :=
  { scan :=
      { positioners := [],
        detectors :=
          [⟨"MEX2ES01DPP01:ch1:W:ArrayData", "", ""⟩,
           ⟨"MEX2ES01DPP01:ch2:W:ArrayData", "", ""⟩,
           ⟨"MEX2ES01DPP01:ch3:W:ArrayData", "", ""⟩,
           ⟨"MEX2ES01DPP01:ch4:W:ArrayData", "", ""⟩] },
    array := [[], []] }

/-- A representative `.mda` file with a secondary channel×bin array. -/
def mdaSampleFile : MdaFile :=
  { name := "t.mda",
    header := [("mda_version", "1.3")],
    params := [],
    scan1 :=
      { positioners :=
          [⟨"MEX2DCM01:ENERGY", "DCM energy", "TABLE", "keV",
            "MEX2DCM01:ENERGY", "DCM energy", "keV"⟩],
        detectors := [⟨"MEX2ES01DAQ01:ch2:S:MeanValue_RBV", "I0", "counts"⟩] },
    array1 := [[31 / 10, 10], [32 / 10, 11]],
    second := some mdaSampleDim2 }

/-- The representative `.mda` file without a secondary dimension. -/
def mdaSampleFile1D : MdaFile := { mdaSampleFile with second := none }

/-- CLAIM C5 (counterexample): a successful reduction appends the label
`"Florescence Sum (Reduced)"` — not `"Fluorescence Sum (Reduced)"` as the
claim spells it. -/
theorem c5_reduced_column_label_counterexample :
    ((parse_mda_2024_04 none false false (some (3100, 3800)) mdaSampleFile
        none).outcome).map (fun o => o.labels.getLast?) =
      .ok (some "Florescence Sum (Reduced)") ∧
      ("Florescence Sum (Reduced)" : String) ≠ "Fluorescence Sum (Reduced)" :=
  ⟨rfl, by decide⟩

/-- The dataset parsed from the representative `.mda` file with an explicit
domain. -/
def mdaSampleOut : MdaOut :=
  ((parse_mda_2024_04 none false false (some (3100, 3800)) mdaSampleFile
      none).outcome).toOption.getD ⟨none, [], [], [], [], []⟩

/-- Witness for `c5_reduced_column_label_unit` on the representative file. -/
theorem c5_reduced_column_label_unit_witness :
    mdaSampleOut.labels.getLast? = some "Florescence Sum (Reduced)" ∧
      mdaSampleOut.units.getLast? = some "a.u." :=
  c5_reduced_column_label_unit none false (some (3100, 3800)) none
    mdaSampleFile mdaSampleDim2 mdaSampleOut rfl rfl

/-- Witness for `c2_cached_binning_reused` on the representative file. -/
theorem c2_cached_binning_reused_witness :
    (parse_mda_2024_04 (some (3100, 3800)) false true none mdaSampleFile
        none).usedDomain = some (3100, 3800) ∧
      (parse_mda_2024_04 (some (3100, 3800)) false true none mdaSampleFile
        none).dialogShown = false ∧
      (parse_mda_2024_04 (some (3100, 3800)) false true none mdaSampleFile
        none).cache = some (3100, 3800) :=
  c2_cached_binning_reused (3100, 3800) mdaSampleFile mdaSampleDim2 none
    (by decide) rfl (by decide)

/-- Witness for `c3_explicit_domain_overwrites_cache`: an explicit domain
replaces an empty cache. -/
theorem c3_explicit_domain_overwrites_cache_witness :
    (parse_mda_2024_04 none false false (some (3100, 3800)) mdaSampleFile
        none).cache = some (3100, 3800) :=
  c3_explicit_domain_overwrites_cache none false (3100, 3800) mdaSampleFile
    mdaSampleDim2 none (by decide) rfl (by decide)

/-- Witness for `c7_dialog_cancel_aborts`: empty cache, cancelled dialog. -/
theorem c7_dialog_cancel_aborts_witness :
    (parse_mda_2024_04 none false true none mdaSampleFile none).outcome =
      .error (.valueError "No binning settings selected.") ∧
      (parse_mda_2024_04 none false true none mdaSampleFile
        none).dialogShown = true :=
  c7_dialog_cancel_aborts none true mdaSampleFile mdaSampleDim2
    (by decide) rfl (by decide) (Or.inr rfl)

/-- Witness for `c10_no_secondary_frame`: explicit domain supplied, no
secondary array. -/
theorem c10_no_secondary_frame_witness :
    (parse_mda_2024_04 none false true (some (3100, 3800)) mdaSampleFile1D
        none).cache = none ∧
      (parse_mda_2024_04 none false true (some (3100, 3800)) mdaSampleFile1D
        none).dialogShown = false ∧
      (parse_mda_2024_04 none false true (some (3100, 3800)) mdaSampleFile1D
        none).usedDomain = none ∧
      (parse_mda_2024_04 none false true (some (3100, 3800)) mdaSampleFile1D
        none).outcome =
        .ok ⟨(if false then none else some mdaSampleFile1D.array1),
          mdaLabels mdaSampleFile1D, mdaUnits mdaSampleFile1D,
          mdaParams mdaSampleFile1D, mdaColumnTypes,
          mdaColumnDescriptions mdaSampleFile1D⟩ :=
  c10_no_secondary_frame none false true (some (3100, 3800)) none
    mdaSampleFile1D (by decide) rfl
